import Mathlib

/-!
Verification of the directive layer of gslab_make_dev
(`gslab_make_dev/private/programdirective.py`).

The Python classes `Directive`, `ProgramDirective` and `LyxDirective` are
embedded as Lean structures; their methods become pure functions over an
explicit file-system state (a map from path to optional contents), with
process spawning abstracted as an oracle argument, and Python exceptions
modelled by `Except`.  Modules of the repository that are not part of the
provided source (`metadata`, `messages`, `utility`) are modelled from the
spec, as marked on each such definition.
-/

namespace GslabMakeDev

/-! ## String helpers (substring test, Python `str.split`) -/

/-- Boolean prefix test on character lists. -/
def startsWithL : List Char → List Char → Bool
  | [], _ => true
  | _ :: _, [] => false
  | a :: as, b :: bs => a = b && startsWithL as bs

/-- Boolean infix (substring) test on character lists. -/
def containsL (n : List Char) : List Char → Bool
  | [] => startsWithL n []
  | c :: cs => startsWithL n (c :: cs) || containsL n cs

/-- Whether `needle` occurs as a contiguous substring of `hay`. -/
def isSubstr (needle hay : String) : Bool :=
  containsL needle.toList hay.toList

/-- Characters treated as whitespace by Python `str.split()`. -/
def pyIsSpace (c : Char) : Bool :=
  c = ' ' || c = '\t' || c = '\n' || c = '\x0d' || c = '\x0b' || c = '\x0c'

/-- Worker for `pySplit`: `cur` is the current token, reversed. -/
def pySplitAux (cur : List Char) : List Char → List String
  | [] => if cur = [] then [] else [⟨cur.reverse⟩]
  | c :: cs =>
    if pyIsSpace c then
      if cur = [] then pySplitAux [] cs
      else ⟨cur.reverse⟩ :: pySplitAux [] cs
    else pySplitAux (c :: cur) cs

/-- Python `str.split()` with no separator: splits on runs of whitespace and
drops empty tokens. -/
def pySplit (s : String) : List String := pySplitAux [] s.toList

/-! ## Python `os.path` helpers (POSIX semantics) -/

/-- Index of the last occurrence of `c`, if any. -/
def lastIdx (c : Char) : List Char → Option Nat
  | [] => none
  | a :: as =>
    match lastIdx c as with
    | some i => some (i + 1)
    | none => if a = c then some 0 else none

/-- Drop trailing slashes. -/
def rstripSlash (cs : List Char) : List Char :=
  (cs.reverse.dropWhile (fun c => c = '/')).reverse

/-- Python `os.path.dirname` (POSIX). -/
def pyDirname (p : String) : String :=
  let cs := p.toList
  match lastIdx '/' cs with
  | none => ""
  | some i =>
    let head := cs.take (i + 1)
    if head ≠ [] ∧ ¬ (head.all (fun c => c = '/')) then ⟨rstripSlash head⟩
    else ⟨head⟩

/-- Python `os.path.basename` (POSIX). -/
def pyBasename (p : String) : String :=
  let cs := p.toList
  match lastIdx '/' cs with
  | none => p
  | some i => ⟨cs.drop (i + 1)⟩

/-- Python `os.path.splitext` (POSIX): splits off the extension at the last
dot, provided a non-dot character precedes it within the basename. -/
def pySplitext (p : String) : String × String :=
  let cs := p.toList
  let si : Int := match lastIdx '/' cs with | some i => (i : Int) | none => -1
  let di : Int := match lastIdx '.' cs with | some i => (i : Int) | none => -1
  if si < di then
    let between := (cs.drop (si + 1).toNat).take (di - si - 1).toNat
    if between.any (fun c => c ≠ '.') then
      (⟨cs.take di.toNat⟩, ⟨cs.drop di.toNat⟩)
    else (p, "")
  else (p, "")

/-! ## File system state -/

/-- File system: a map from path to optional file contents. -/
def FS := String → Option String

/-- Write (create or truncate) a file, as Python `open(p, 'w')` plus write. -/
def FS.write (fs : FS) (p v : String) : FS :=
  fun q => if q = p then some v else fs q

/-- Append to a file, creating it when absent, as Python `open(p, 'a')` plus
write. -/
def FS.append (fs : FS) (p v : String) : FS :=
  FS.write fs p (((fs p).getD "") ++ v)

/-- Delete a file, as Python `os.remove`. -/
def FS.remove (fs : FS) (p : String) : FS :=
  fun q => if q = p then none else fs q

/-- Python `os.path.isfile`. -/
def FS.isfile (fs : FS) (p : String) : Bool := (fs p).isSome

/-! ## Collaborator modules absent from the provided source -/

/-- Modelled from the spec: `utility.norm_path` (the `utility` module is not
part of the provided source).  The spec treats it as an opaque cross-OS path
normalization; it is modelled as the identity on paths. -/
def norm_path (p : String) : String := p

/-- Modelled from the spec: `utility.format_error` (the `utility` module is
not part of the provided source).  The spec only requires the diagnostic to
embed the command and the trace, so formatting is modelled as the identity. -/
def format_error (s : String) : String := s

/-- Modelled from the spec: `messages.crit_error_bad_command` (the `messages`
module is not part of the provided source): a diagnostic template embedding
the command. -/
def crit_error_bad_command (cmd : String) : String :=
  "Command cannot be executed: " ++ cmd

/-- Errors raised as `CritError` (the `exceptionclasses` module is not part of
the provided source; the constructors carry the interpolated argument of the
corresponding `messages` template). -/
inductive CritErr where
  | unknownSystem (osname : String)
  | noMakelog (path : String)
  | noFile (path : String)
  | badExtension (path : String)
deriving DecidableEq, Repr

/-- Modelled from the spec: the `metadata` module (not part of the provided
source): static tables of per-application extensions, per-OS default
executables and options, global settings, and the process-wide
`makelog_started` flag. -/
structure Metadata where
  extensions : String → String
  default_executables : String → String → String
  default_options : String → String → String
  settings_output_dir : String
  settings_temp_dir : String
  makelog_started : Bool

/-! ## Directive -/

/-- State of a `Directive` object (`programdirective.py` lines 17-53). -/
structure Directive where
  makelog : String
  osname : String
  shell : Bool
  log : String
  output : String
deriving DecidableEq, Repr

/-- `Directive.__init__` (lines 42-74): stores the fields, checks the OS name
is `posix` or `nt` (`check_os`), and normalizes `makelog` and, when non-empty,
`log` (`get_paths`). -/
def Directive.init (makelog osname : String) (shell : Bool) (log : String) :
    Except CritErr Directive :=
  if osname ≠ "posix" ∧ osname ≠ "nt" then
    .error (.unknownSystem osname)
  else
    .ok { makelog := norm_path makelog
          osname := osname
          shell := shell
          log := if log ≠ "" then norm_path log else log
          output := "" }

/-- Argument passed as the first parameter of `subprocess.Popen`: either a
token list or an unsplit string. -/
inductive PopenCmd where
  | tokens (ts : List String)
  | raw (s : String)
deriving DecidableEq, Repr

/-- The first argument `Directive.execute_command` passes to
`subprocess.Popen` (lines 94-95): the command is split into
whitespace-delimited tokens unconditionally. -/
def dispatchedCmd (_shell : Bool) (command : String) : PopenCmd :=
  .tokens (pySplit command)

/-- Outcome of the `subprocess.Popen` / `communicate` pair: either a return
code with captured stdout and stderr, or a raised exception with its
formatted traceback. -/
inductive SpawnOutcome where
  | ok (returncode : Int) (stdout stderr : String)
  | raises (trace : String)

/-- The banner line printed and stored by `execute_command` (line 90). -/
def execBanner (command : String) : String :=
  "Executing: \"" ++ command ++ "\""

/-- `Directive.execute_command` (lines 76-110).  `spawn` abstracts the
`subprocess.Popen`/`communicate` pair; it receives exactly what the code
passes to `Popen` (the command argument and the `shell` flag).  Returns the
`(returncode, stderr)` tuple together with the directive with its `output`
field updated. -/
def Directive.execute_command (d : Directive) (command : String)
    (spawn : PopenCmd → Bool → SpawnOutcome) : (Int × String) × Directive :=
  let d1 : Directive := { d with output := execBanner command }
  match spawn (dispatchedCmd d.shell command) d.shell with
  | .ok rc so se =>
    let d2 := if so ≠ "" then { d1 with output := d1.output ++ "\n" ++ so } else d1
    let d3 := if se ≠ "" then { d2 with output := d2.output ++ "\n" ++ se } else d2
    ((rc, se), d3)
  | .raises tr =>
    let err := format_error
      (crit_error_bad_command (" ".intercalate (pySplit command)) ++ "\n" ++ tr)
    ((1, err), { d1 with output := d1.output ++ "\n" ++ err })

/-- `Directive.write_log` (lines 112-128): if `makelog` is set, raise unless
`metadata.makelog_started` holds and the makelog file exists, else append
`output` to it; then, if `log` is set, overwrite it with `output`.  Returns
the raised error (if any) together with the file system at that point. -/
def Directive.write_log (d : Directive) (md : Metadata) (fs : FS) :
    Except CritErr Unit × FS :=
  if d.makelog ≠ "" ∧ ¬ (md.makelog_started ∧ FS.isfile fs d.makelog) then
    (.error (.noMakelog d.makelog), fs)
  else
    let fs1 := if d.makelog ≠ "" then FS.append fs d.makelog d.output else fs
    let fs2 := if d.log ≠ "" then FS.write fs1 d.log d.output else fs1
    (.ok (), fs2)

/-! ## ProgramDirective -/

/-- State of a `ProgramDirective` object (lines 131-236). -/
structure ProgramDirective extends Directive where
  application : String
  program : String
  executable : String
  option : String
  args : String
  program_dir : String
  program_base : String
  program_name : String
  program_ext : String
deriving DecidableEq, Repr

/-- `ProgramDirective.__init__` (lines 170-187): base `Directive`
construction, then `parse_program` (lines 189-200), `check_program`
(lines 202-214), `get_executable` (lines 216-225) and `get_option`
(lines 227-236), in that order. -/
def ProgramDirective.init (md : Metadata) (fs : FS)
    (application program executable option args : String)
    (makelog osname : String) (shell : Bool) (log : String) :
    Except CritErr ProgramDirective := do
  let base ← Directive.init makelog osname shell log
  let prog := norm_path program
  let pdir := pyDirname prog
  let pbase := pyBasename prog
  let pse := pySplitext pbase
  if ¬ FS.isfile fs prog then
    throw (.noFile prog)
  else if pse.2 ≠ md.extensions application then
    throw (.badExtension prog)
  else
    let exec := if executable ≠ "" then executable
                else md.default_executables osname application
    let opt := if option ≠ "" then option
               else md.default_options osname application
    .ok { base with
          application := application
          program := prog
          executable := exec
          option := opt
          args := args
          program_dir := pdir
          program_base := pbase
          program_name := pse.1
          program_ext := pse.2 }

/-- `ProgramDirective.move_program_output` (lines 238-272): read the program
output file (raising a file error when unreadable), append its contents to
the makelog under the same started-flag/file-exists rule as `write_log`,
then either copy it to `log_file` and delete it (when `log_file` is given
and differs), leave it (when `log_file` equals the normalized output path),
or delete it (when `log_file` is omitted).  Returns the raised error (if
any) together with the file system at that point. -/
def ProgramDirective.move_program_output (d : ProgramDirective) (md : Metadata)
    (fs : FS) (program_output : String) (log_file : String) :
    Except CritErr Unit × FS :=
  match fs (norm_path program_output) with
  | none => (.error (.noFile (norm_path program_output)), fs)
  | some out =>
    if d.makelog ≠ "" ∧ ¬ (md.makelog_started ∧ FS.isfile fs d.makelog) then
      (.error (.noMakelog d.makelog), fs)
    else
      let fs1 := if d.makelog ≠ "" then FS.append fs d.makelog out else fs
      let fs2 :=
        if log_file ≠ "" then
          if norm_path program_output ≠ log_file then
            FS.remove (FS.write fs1 log_file out) (norm_path program_output)
          else fs1
        else FS.remove fs1 (norm_path program_output)
      (.ok (), fs2)

/-! ## LyxDirective -/

/-- State of a `LyxDirective` object (lines 298-351). -/
structure LyxDirective extends ProgramDirective where
  doctype : String
  pdfout : String
deriving DecidableEq, Repr

/-- The warning printed by `LyxDirective.check_doctype` (line 337). -/
def lyxWarn (doctype : String) : String :=
  "Document type \"" ++ doctype ++ "\" unrecognized. Reverting to default"

/-- `LyxDirective.__init__` (lines 317-351): base `ProgramDirective`
construction, then `check_doctype` (an unrecognized document type is
replaced by the empty string with a printed warning, returned here as a
list) and `get_pdfout` (a non-empty document type forces `pdfout` to the
metadata temp directory; the result is normalized). -/
def LyxDirective.init (md : Metadata) (fs : FS)
    (doctype pdfout : String)
    (application program executable option args : String)
    (makelog osname : String) (shell : Bool) (log : String) :
    Except CritErr (LyxDirective × List String) := do
  let base ← ProgramDirective.init md fs application program executable option
    args makelog osname shell log
  let dtw :=
    if ¬ (doctype = "handout" ∨ doctype = "comments" ∨ doctype = "") then
      ("", [lyxWarn doctype])
    else (doctype, ([] : List String))
  let pout := if dtw.1 ≠ "" then md.settings_temp_dir else pdfout
  .ok (⟨base, dtw.1, norm_path pout⟩, dtw.2)

/-! ## Concrete fixtures used by witnesses and counterexamples -/

/-- A concrete file system holding a makelog, a program file, a Lyx program
file and a program-output file. -/
def fsW : FS := fun p =>
  if p = "prog.py" then some "PROG"
  else if p = "prog.lyx" then some "LYXPROG"
  else if p = "make.log" then some "ML"
  else if p = "out.txt" then some "OUT1"
  else none

/-- A concrete metadata table with the makelog-started flag set. -/
def mdW : Metadata where
  extensions := fun app => if app = "lyx" then ".lyx" else ".py"
  default_executables := fun _ app => "exec-" ++ app
  default_options := fun _ app => "opt-" ++ app
  settings_output_dir := "OUTDIR"
  settings_temp_dir := "TEMPDIR"
  makelog_started := true

/-- The metadata table with the makelog-started flag cleared. -/
def mdWoff : Metadata := { mdW with makelog_started := false }

/-- A concrete directive with both logs set. -/
def dX : Directive :=
  { makelog := "make.log", osname := "posix", shell := false,
    log := "dir.log", output := "X" }

/-- A spawn oracle that always succeeds with fixed captured output. -/
def spawnOk : PopenCmd → Bool → SpawnOutcome := fun _ _ => .ok 0 "SO" "SE"

/-- A spawn oracle that always raises with a fixed traceback. -/
def spawnBoom : PopenCmd → Bool → SpawnOutcome := fun _ _ => .raises "TRC"

/-- The program directive produced by `ProgramDirective.init` on `mdW`,
`fsW` and the Lyx program file. -/
def pdW : ProgramDirective :=
  { makelog := "make.log", osname := "posix", shell := false, log := "",
    output := "", application := "lyx", program := "prog.lyx",
    executable := "exec-lyx", option := "opt-lyx", args := "",
    program_dir := "", program_base := "prog.lyx", program_name := "prog",
    program_ext := ".lyx" }

/-- The Lyx directive produced from `pdW` with the handout document type. -/
def ldW : LyxDirective := ⟨pdW, "handout", "TEMPDIR"⟩

/-! ## String infrastructure lemmas -/

theorem toList_app (a b : String) : (a ++ b).toList = a.toList ++ b.toList :=
  String.data_append a b

theorem startsWithL_self_append (n b : List Char) :
    startsWithL n (n ++ b) = true := by
  induction n with
  | nil => rfl
  | cons a as ih => simp [startsWithL, ih]

theorem containsL_of_startsWithL (n h : List Char)
    (hp : startsWithL n h = true) : containsL n h = true := by
  cases h with
  | nil => simpa [containsL] using hp
  | cons c cs => simp [containsL, hp]

theorem containsL_append_left (a n h : List Char)
    (hc : containsL n h = true) : containsL n (a ++ h) = true := by
  induction a with
  | nil => simpa using hc
  | cons x xs ih => simp [containsL, ih]

theorem isSubstr_sandwich (pre s post : String) :
    isSubstr s (pre ++ s ++ post) = true := by
  unfold isSubstr
  rw [toList_app, toList_app, List.append_assoc]
  exact containsL_append_left _ _ _
    (containsL_of_startsWithL _ _ (startsWithL_self_append _ _))

theorem isSubstr_suffix (pre s : String) : isSubstr s (pre ++ s) = true := by
  have h := isSubstr_sandwich pre s ""
  rwa [String.append_empty] at h

theorem app_ne_empty_left (a b : String) (h : a ≠ "") : a ++ b ≠ "" := by
  intro hab
  apply h
  have h2 := congrArg String.toList hab
  rw [toList_app] at h2
  have h3 := List.append_eq_nil.mp h2
  exact String.ext h3.1

/-! ## Claim C1 -/

/-- Claim C1, as stated, is false: with the shell flag true, the command is
not dispatched unsplit — `execute_command` splits unconditionally (line 94
precedes the `Popen` call of line 95 in both shell modes), so the dispatched
argument for shell mode is the token list, not the raw string. -/
theorem c1_counterexample :
    dispatchedCmd true "echo hi" = PopenCmd.tokens ["echo", "hi"] ∧
    dispatchedCmd true "echo hi" ≠ PopenCmd.raw "echo hi" := by
  decide

/-- Claim C1 (amended): for every command string, `execute_command` splits
the command into whitespace-delimited tokens regardless of the shell flag,
and the process-spawning primitive is reached only through that token list
together with the directive's shell flag (two spawn oracles agreeing there
give identical results). -/
theorem c1_dispatch_always_splits (sh : Bool) (cmd : String) (d : Directive)
    (spawn spawn2 : PopenCmd → Bool → SpawnOutcome)
    (h : spawn (PopenCmd.tokens (pySplit cmd)) d.shell
       = spawn2 (PopenCmd.tokens (pySplit cmd)) d.shell) :
    dispatchedCmd sh cmd = PopenCmd.tokens (pySplit cmd) ∧
    d.execute_command cmd spawn = d.execute_command cmd spawn2 := by
  refine ⟨rfl, ?_⟩
  unfold Directive.execute_command
  rw [show dispatchedCmd d.shell cmd = PopenCmd.tokens (pySplit cmd) from rfl, h]

/-- Witness for C1's amended theorem at a concrete input. -/
theorem c1_dispatch_always_splits_witness :
    dispatchedCmd false "echo hi" = PopenCmd.tokens (pySplit "echo hi") ∧
    dX.execute_command "echo hi" spawnOk = dX.execute_command "echo hi" spawnOk :=
  c1_dispatch_always_splits false "echo hi" dX spawnOk spawnOk rfl

/-! ## Claim C2 -/

/-- Claim C2, as stated, is false in one respect: the diagnostic built in the
exception branch joins the already-split tokens with single spaces
(line 104), so for the command with a double space the full command string
does not occur in the diagnostic. -/
theorem c2_counterexample :
    (dX.execute_command "a  b" spawnBoom).1.1 = 1 ∧
    isSubstr "a  b" ((dX.execute_command "a  b" spawnBoom).1.2) = false := by
  decide

/-- Claim C2 (amended): `execute_command` never raises (it is total: every
spawn outcome yields a returned pair); when the spawn primitive raises, it
returns exit code 1 paired with a non-empty diagnostic that embeds the
whitespace-normalized command (its tokens joined by single spaces) and the
failure's textual trace. -/
theorem c2_execute_never_raises (d : Directive) (cmd tr : String)
    (spawn : PopenCmd → Bool → SpawnOutcome)
    (hs : spawn (dispatchedCmd d.shell cmd) d.shell = .raises tr) :
    (d.execute_command cmd spawn).1.1 = 1 ∧
    (d.execute_command cmd spawn).1.2 ≠ "" ∧
    isSubstr (" ".intercalate (pySplit cmd)) ((d.execute_command cmd spawn).1.2) = true ∧
    isSubstr tr ((d.execute_command cmd spawn).1.2) = true := by
  unfold Directive.execute_command
  rw [hs]
  refine ⟨rfl, ?_, ?_, ?_⟩
  · exact app_ne_empty_left _ _
      (app_ne_empty_left _ _ (app_ne_empty_left _ _ (by decide)))
  · show isSubstr _ (format_error (crit_error_bad_command _ ++ "\n" ++ tr)) = true
    unfold format_error crit_error_bad_command
    rw [String.append_assoc ("Command cannot be executed: " ++ _) "\n" tr]
    exact isSubstr_sandwich _ _ _
  · show isSubstr tr (format_error (crit_error_bad_command _ ++ "\n" ++ tr)) = true
    unfold format_error
    exact isSubstr_suffix _ _

/-- Witness for C2's amended theorem at a concrete input. -/
theorem c2_execute_never_raises_witness :
    (dX.execute_command "ls x" spawnBoom).1.1 = 1 ∧
    (dX.execute_command "ls x" spawnBoom).1.2 ≠ "" ∧
    isSubstr (" ".intercalate (pySplit "ls x")) ((dX.execute_command "ls x" spawnBoom).1.2) = true ∧
    isSubstr "TRC" ((dX.execute_command "ls x" spawnBoom).1.2) = true :=
  c2_execute_never_raises dX "ls x" "TRC" spawnBoom rfl

/-! ## File-system infrastructure lemmas -/

theorem FS.write_self (fs : FS) (p v : String) : FS.write fs p v p = some v := by
  simp [FS.write]

theorem FS.write_ne (fs : FS) (p v q : String) (h : q ≠ p) :
    FS.write fs p v q = fs q := by
  simp [FS.write, h]

theorem FS.append_self (fs : FS) (p v : String) :
    FS.append fs p v p = some (((fs p).getD "") ++ v) := by
  simp [FS.append, FS.write]

theorem FS.append_ne (fs : FS) (p v q : String) (h : q ≠ p) :
    FS.append fs p v q = fs q := by
  simp [FS.append, FS.write, h]

theorem FS.remove_self (fs : FS) (p : String) : FS.remove fs p p = none := by
  simp [FS.remove]

theorem FS.remove_ne (fs : FS) (p q : String) (h : q ≠ p) :
    FS.remove fs p q = fs q := by
  simp [FS.remove, h]

/-- Helper: under the makelog precondition, `write_log` succeeds and performs
the append (and, when `log` is set, the overwrite). -/
theorem write_log_ok (d : Directive) (md : Metadata) (fs : FS)
    (h2 : md.makelog_started = true)
    (hif : FS.isfile fs d.makelog = true) :
    d.write_log md fs =
      (.ok (),
       if d.log ≠ "" then
         FS.write (if d.makelog ≠ "" then FS.append fs d.makelog d.output else fs)
           d.log d.output
       else (if d.makelog ≠ "" then FS.append fs d.makelog d.output else fs)) := by
  unfold Directive.write_log
  rw [if_neg]
  exact fun h => h.2 ⟨h2, hif⟩

/-! ## Claim C3 -/

/-- Claim C3: with `makelog` set and the process-wide started flag false or
the makelog file absent, `write_log` raises the configuration error and the
file system at the raise is the unmodified input (nothing is created or
modified, the independent log included). -/
theorem c3_write_log_requires_started (d : Directive) (md : Metadata) (fs : FS)
    (h1 : d.makelog ≠ "")
    (h2 : ¬ (md.makelog_started = true ∧ FS.isfile fs d.makelog = true)) :
    d.write_log md fs = (.error (.noMakelog d.makelog), fs) := by
  unfold Directive.write_log
  rw [if_pos ⟨h1, h2⟩]

/-- Witness for C3 at a concrete input with the started flag cleared. -/
theorem c3_write_log_requires_started_witness :
    dX.write_log mdWoff fsW = (.error (.noMakelog dX.makelog), fsW) :=
  c3_write_log_requires_started dX mdWoff fsW (by decide) (by decide)

/-! ## Claim C7 -/

/-- Claim C7: after `execute_command`, the stored output equals the banner
line quoting the command, followed by the captured stdout when non-empty,
followed by the captured stderr when non-empty, each on its own line. -/
theorem c7_output_format (d : Directive) (cmd : String)
    (spawn : PopenCmd → Bool → SpawnOutcome) (rc : Int) (so se : String)
    (hs : spawn (dispatchedCmd d.shell cmd) d.shell = .ok rc so se) :
    ((d.execute_command cmd spawn).2).output =
      execBanner cmd ++ (if so = "" then "" else "\n" ++ so)
        ++ (if se = "" then "" else "\n" ++ se) := by
  unfold Directive.execute_command
  rw [hs]
  by_cases hso : so = "" <;> by_cases hse : se = "" <;>
    simp [hso, hse, String.append_empty, String.append_assoc]

/-- Witness for C7 at a concrete input. -/
theorem c7_output_format_witness :
    ((dX.execute_command "echo hi" spawnOk).2).output =
      execBanner "echo hi" ++ (if "SO" = "" then "" else "\n" ++ "SO")
        ++ (if "SE" = "" then "" else "\n" ++ "SE") :=
  c7_output_format dX "echo hi" spawnOk 0 "SO" "SE" rfl

/-! ## Claim C6 -/

/-- Claim C6: with `makelog` set and the precondition satisfied, `write_log`
appends `output` to the makelog file (so the old contents stay a prefix and a
second call grows the file again — it is never truncated), and independently,
when the independent log path (a separate file per the spec) is set, it is
overwritten with exactly `output`. -/
theorem c6_write_log_append_overwrite (d : Directive) (md : Metadata)
    (fs : FS) (ml : String)
    (h1 : d.makelog ≠ "")
    (h2 : md.makelog_started = true)
    (h3 : fs d.makelog = some ml)
    (h4 : d.log ≠ d.makelog) :
    (d.write_log md fs).1 = .ok () ∧
    (d.write_log md fs).2 d.makelog = some (ml ++ d.output) ∧
    (d.log ≠ "" → (d.write_log md fs).2 d.log = some d.output) ∧
    (d.write_log md (d.write_log md fs).2).2 d.makelog
      = some (ml ++ d.output ++ d.output) := by
  have hif : FS.isfile fs d.makelog = true := by
    rw [FS.isfile, h3]; rfl
  have e1 := write_log_ok d md fs h2 hif
  have hmk : d.makelog ≠ d.log := fun h => h4 h.symm
  have hfs1 : (d.write_log md fs).2 d.makelog = some (ml ++ d.output) := by
    rw [e1]
    by_cases hl : d.log ≠ "" <;>
      simp [hl, h1, FS.write_ne _ _ _ _ hmk, FS.append_self, h3]
  refine ⟨by rw [e1], hfs1, ?_, ?_⟩
  · intro hl
    rw [e1]
    simp [hl, FS.write_self]
  · have hif2 : FS.isfile ((d.write_log md fs).2) d.makelog = true := by
      rw [FS.isfile, hfs1]; rfl
    have e2 := write_log_ok d md ((d.write_log md fs).2) h2 hif2
    rw [e2]
    by_cases hl : d.log ≠ "" <;>
      simp [hl, h1, FS.write_ne _ _ _ _ hmk, FS.append_self, hfs1]

/-- Witness for C6 at a concrete input. -/
theorem c6_write_log_append_overwrite_witness :
    (dX.write_log mdW fsW).1 = .ok () ∧
    (dX.write_log mdW fsW).2 dX.makelog = some ("ML" ++ dX.output) ∧
    (dX.log ≠ "" → (dX.write_log mdW fsW).2 dX.log = some dX.output) ∧
    (dX.write_log mdW (dX.write_log mdW fsW).2).2 dX.makelog
      = some ("ML" ++ dX.output ++ dX.output) :=
  c6_write_log_append_overwrite dX mdW fsW "ML" (by decide) (by decide)
    (by decide) (by decide)

/-! ## Claims C4 and C10 -/

/-- Helper: under the makelog precondition and a readable program output,
`move_program_output` succeeds and performs the append followed by the
copy/delete step. -/
theorem move_ok (d : ProgramDirective) (md : Metadata) (fs : FS)
    (program_output log_file out : String)
    (hpo : fs (norm_path program_output) = some out)
    (h2 : md.makelog_started = true)
    (hif : FS.isfile fs d.makelog = true) :
    d.move_program_output md fs program_output log_file =
      (.ok (),
       if log_file ≠ "" then
         if norm_path program_output ≠ log_file then
           FS.remove
             (FS.write (if d.makelog ≠ "" then FS.append fs d.makelog out else fs)
               log_file out)
             (norm_path program_output)
         else (if d.makelog ≠ "" then FS.append fs d.makelog out else fs)
       else
         FS.remove (if d.makelog ≠ "" then FS.append fs d.makelog out else fs)
           (norm_path program_output)) := by
  have hred : d.move_program_output md fs program_output log_file =
      if d.makelog ≠ "" ∧ ¬ (md.makelog_started ∧ FS.isfile fs d.makelog) then
        (.error (.noMakelog d.makelog), fs)
      else
        (.ok (),
         if log_file ≠ "" then
           if norm_path program_output ≠ log_file then
             FS.remove
               (FS.write (if d.makelog ≠ "" then FS.append fs d.makelog out else fs)
                 log_file out)
               (norm_path program_output)
           else (if d.makelog ≠ "" then FS.append fs d.makelog out else fs)
         else
           FS.remove (if d.makelog ≠ "" then FS.append fs d.makelog out else fs)
             (norm_path program_output)) := by
    unfold ProgramDirective.move_program_output
    rw [hpo]
  rw [hred, if_neg]
  exact fun h => h.2 ⟨h2, hif⟩

/-- Claim C4: under the makelog precondition, `move_program_output` appends
the program output's contents to the makelog and then: deletes the output
when no log file is given; copies it to the log file and deletes it when a
differing log file is given; and leaves it in place when the log file equals
the output path. -/
theorem c4_move_program_output (d : ProgramDirective) (md : Metadata)
    (fs : FS) (program_output log_file out ml : String)
    (hpo : fs (norm_path program_output) = some out)
    (h1 : d.makelog ≠ "")
    (h2 : md.makelog_started = true)
    (h3 : fs d.makelog = some ml)
    (hd1 : norm_path program_output ≠ d.makelog)
    (hd2 : log_file ≠ d.makelog) :
    (d.move_program_output md fs program_output log_file).1 = .ok () ∧
    (d.move_program_output md fs program_output log_file).2 d.makelog
      = some (ml ++ out) ∧
    (log_file = "" →
      (d.move_program_output md fs program_output log_file).2
        (norm_path program_output) = none) ∧
    (log_file ≠ "" → log_file ≠ norm_path program_output →
      (d.move_program_output md fs program_output log_file).2 log_file
        = some out ∧
      (d.move_program_output md fs program_output log_file).2
        (norm_path program_output) = none) ∧
    (log_file ≠ "" → log_file = norm_path program_output →
      (d.move_program_output md fs program_output log_file).2
        (norm_path program_output) = some out) := by
  have hif : FS.isfile fs d.makelog = true := by
    rw [FS.isfile, h3]; rfl
  have e := move_ok d md fs program_output log_file out hpo h2 hif
  have hmk : d.makelog ≠ log_file := fun h => hd2 h.symm
  have hmp : d.makelog ≠ norm_path program_output := fun h => hd1 h.symm
  refine ⟨by rw [e], ?_, ?_, ?_, ?_⟩
  · rw [e]
    by_cases hl : log_file = ""
    · simp [hl, h1, FS.remove_ne _ _ _ hmp, FS.append_self, h3]
    · by_cases hq : norm_path program_output = log_file
      · simp [hl, hq, h1, FS.append_self, h3]
      · simp [hl, hq, h1, FS.remove_ne _ _ _ hmp,
          FS.write_ne _ _ _ _ hmk, FS.append_self, h3]
  · intro hl
    rw [e]
    simp [hl, h1, FS.remove_self]
  · intro hl hq
    rw [e]
    have hq2 : norm_path program_output ≠ log_file := fun h => hq h.symm
    constructor
    · simp [hl, hq2, h1, FS.remove_ne _ _ _ hq, FS.write_self]
    · simp [hl, hq2, h1, FS.remove_self]
  · intro hl hq
    rw [e, hq]
    rw [hq] at hl
    simp [hl, h1, FS.append_ne _ _ _ _ hd1, hpo]

/-- Witness for C4 at a concrete input with a differing log file. -/
theorem c4_move_program_output_witness :
    (pdW.move_program_output mdW fsW "out.txt" "dest.log").1 = .ok () ∧
    (pdW.move_program_output mdW fsW "out.txt" "dest.log").2 pdW.makelog
      = some ("ML" ++ "OUT1") ∧
    ("dest.log" = "" →
      (pdW.move_program_output mdW fsW "out.txt" "dest.log").2
        (norm_path "out.txt") = none) ∧
    ("dest.log" ≠ "" → "dest.log" ≠ norm_path "out.txt" →
      (pdW.move_program_output mdW fsW "out.txt" "dest.log").2 "dest.log"
        = some "OUT1" ∧
      (pdW.move_program_output mdW fsW "out.txt" "dest.log").2
        (norm_path "out.txt") = none) ∧
    ("dest.log" ≠ "" → "dest.log" = norm_path "out.txt" →
      (pdW.move_program_output mdW fsW "out.txt" "dest.log").2
        (norm_path "out.txt") = some "OUT1") :=
  c4_move_program_output pdW mdW fsW "out.txt" "dest.log" "OUT1" "ML"
    (by decide) (by decide) (by decide) (by decide) (by decide) (by decide)

/-- Claim C10: when `move_program_output` raises the makelog configuration
error, the file system at the raise is the unmodified input: the program
output file is still present with its contents (it was only read), no log
file copy has been written, and the makelog is unchanged. -/
theorem c10_move_requires_started (d : ProgramDirective) (md : Metadata)
    (fs : FS) (program_output log_file out : String)
    (hpo : fs (norm_path program_output) = some out)
    (h1 : d.makelog ≠ "")
    (h2 : ¬ (md.makelog_started = true ∧ FS.isfile fs d.makelog = true)) :
    d.move_program_output md fs program_output log_file
      = (.error (.noMakelog d.makelog), fs) ∧
    (d.move_program_output md fs program_output log_file).2
      (norm_path program_output) = some out := by
  have hred : d.move_program_output md fs program_output log_file =
      if d.makelog ≠ "" ∧ ¬ (md.makelog_started ∧ FS.isfile fs d.makelog) then
        (.error (.noMakelog d.makelog), fs)
      else
        (.ok (),
         if log_file ≠ "" then
           if norm_path program_output ≠ log_file then
             FS.remove
               (FS.write (if d.makelog ≠ "" then FS.append fs d.makelog out else fs)
                 log_file out)
               (norm_path program_output)
           else (if d.makelog ≠ "" then FS.append fs d.makelog out else fs)
         else
           FS.remove (if d.makelog ≠ "" then FS.append fs d.makelog out else fs)
             (norm_path program_output)) := by
    unfold ProgramDirective.move_program_output
    rw [hpo]
  have he : d.move_program_output md fs program_output log_file
      = (.error (.noMakelog d.makelog), fs) := by
    rw [hred, if_pos ⟨h1, h2⟩]
  exact ⟨he, by rw [he]; exact hpo⟩

/-- Witness for C10 at a concrete input with the started flag cleared. -/
theorem c10_move_requires_started_witness :
    pdW.move_program_output mdWoff fsW "out.txt" "dest.log"
      = (.error (.noMakelog pdW.makelog), fsW) ∧
    (pdW.move_program_output mdWoff fsW "out.txt" "dest.log").2
      (norm_path "out.txt") = some "OUT1" :=
  c10_move_requires_started pdW mdWoff fsW "out.txt" "dest.log" "OUT1"
    (by decide) (by decide) (by decide)


/-! ## Claim C5 -/

/-- Claim C5: `ProgramDirective` construction runs base construction, program
decomposition, existence check, extension check, and only then defaulting:
for any metadata table (in particular, whatever the executable/option default
tables hold) a missing program file yields the file-not-found error, and an
existing file with a mismatched extension yields the extension error. -/
theorem c5_init_checks_before_defaulting (md : Metadata) (fs : FS)
    (application program executable option args makelog osname : String)
    (shell : Bool) (log : String)
    (hos : osname = "posix" ∨ osname = "nt") :
    (FS.isfile fs (norm_path program) = false →
      ProgramDirective.init md fs application program executable option args
        makelog osname shell log = .error (.noFile (norm_path program))) ∧
    (FS.isfile fs (norm_path program) = true →
      (pySplitext (pyBasename (norm_path program))).2 ≠ md.extensions application →
      ProgramDirective.init md fs application program executable option args
        makelog osname shell log = .error (.badExtension (norm_path program))) := by
  have hbase : Directive.init makelog osname shell log =
      .ok { makelog := norm_path makelog, osname := osname, shell := shell,
            log := if log ≠ "" then norm_path log else log, output := "" } := by
    unfold Directive.init
    rcases hos with h | h <;> subst h <;> rw [if_neg (by decide)]
  constructor
  · intro hfile
    unfold ProgramDirective.init
    rw [hbase]
    show (if ¬ FS.isfile fs (norm_path program) = true then _ else _) = _
    rw [hfile]
    rfl
  · intro hfile hext
    unfold ProgramDirective.init
    rw [hbase]
    show (if ¬ FS.isfile fs (norm_path program) = true then _
          else if (pySplitext (pyBasename (norm_path program))).2 ≠ md.extensions application then _
          else _) = _
    rw [hfile, if_neg (by simp), if_pos hext]
    rfl

/-- Witness for C5 at a concrete input whose program file is missing. -/
theorem c5_init_checks_before_defaulting_witness :
    (FS.isfile fsW (norm_path "missing.py") = false →
      ProgramDirective.init mdW fsW "python" "missing.py" "" "" ""
        "make.log" "posix" false "" = .error (.noFile (norm_path "missing.py"))) ∧
    (FS.isfile fsW (norm_path "missing.py") = true →
      (pySplitext (pyBasename (norm_path "missing.py"))).2 ≠ mdW.extensions "python" →
      ProgramDirective.init mdW fsW "python" "missing.py" "" "" ""
        "make.log" "posix" false "" = .error (.badExtension (norm_path "missing.py"))) :=
  c5_init_checks_before_defaulting mdW fsW "python" "missing.py" "" "" ""
    "make.log" "posix" false "" (Or.inl rfl)

/-! ## Claim C9 -/

/-- Claim C9: a `LyxDirective` constructed with a document type outside
handout/comments/empty does not fail (given the underlying
`ProgramDirective` construction succeeds): it returns successfully with the
document type reset to empty and the warning emitted. -/
theorem c9_bad_doctype_warns (md : Metadata) (fs : FS)
    (doctype pdfout application program executable option args makelog
      osname : String) (shell : Bool) (log : String) (pd : ProgramDirective)
    (hdt : doctype ≠ "handout" ∧ doctype ≠ "comments" ∧ doctype ≠ "")
    (hpd : ProgramDirective.init md fs application program executable option
      args makelog osname shell log = .ok pd) :
    LyxDirective.init md fs doctype pdfout application program executable
      option args makelog osname shell log
      = .ok (⟨pd, "", norm_path pdfout⟩, [lyxWarn doctype]) := by
  unfold LyxDirective.init
  rw [hpd]
  have hcond : ¬ (doctype = "handout" ∨ doctype = "comments" ∨ doctype = "") :=
    fun h => h.elim hdt.1 (fun h2 => h2.elim hdt.2.1 hdt.2.2)
  simp [Bind.bind, Except.bind, hcond]

/-- Witness for C9 at the concrete document type `bogus`. -/
theorem c9_bad_doctype_warns_witness :
    LyxDirective.init mdW fsW "bogus" "EXPLICIT" "lyx" "prog.lyx" "" "" ""
      "make.log" "posix" false ""
      = .ok (⟨pdW, "", norm_path "EXPLICIT"⟩, [lyxWarn "bogus"]) :=
  c9_bad_doctype_warns mdW fsW "bogus" "EXPLICIT" "lyx" "prog.lyx" "" "" ""
    "make.log" "posix" false "" pdW (by decide) rfl

/-! ## Claim C8 -/

/-- Claim C8, as stated, is false: a `LyxDirective` constructed with the
non-empty document type `bogus` keeps the explicitly supplied pdf output
directory (the document type is reset to empty before `get_pdfout` runs), so
the pdf output directory is not forced to the temp directory. -/
theorem c8_counterexample :
    (LyxDirective.init mdW fsW "bogus" "EXPLICIT" "lyx" "prog.lyx" "" "" ""
        "make.log" "posix" false "").toOption.map (fun p => p.1.pdfout)
      = some "EXPLICIT" ∧
    mdW.settings_temp_dir ≠ "EXPLICIT" := by
  decide

/-- Claim C8 (amended): for every `LyxDirective` constructed with a document
type that is `handout` or `comments` (the non-empty document types surviving
validation), the pdf output directory is forced to the normalized metadata
temp directory, regardless of the supplied pdf output directory argument,
and no warning is emitted. -/
theorem c8_pdfout_forced (md : Metadata) (fs : FS)
    (doctype pdfout application program executable option args makelog
      osname : String) (shell : Bool) (log : String)
    (ld : LyxDirective) (w : List String)
    (hdt : doctype = "handout" ∨ doctype = "comments")
    (hok : LyxDirective.init md fs doctype pdfout application program
      executable option args makelog osname shell log = .ok (ld, w)) :
    ld.pdfout = norm_path md.settings_temp_dir ∧ w = [] := by
  unfold LyxDirective.init at hok
  cases hpd : ProgramDirective.init md fs application program executable
      option args makelog osname shell log with
  | error e =>
    rw [hpd] at hok
    exact absurd hok (by simp [Bind.bind, Except.bind])
  | ok base =>
    rw [hpd] at hok
    rcases hdt with h | h <;> subst h <;>
      simp [Bind.bind, Except.bind] at hok <;>
      obtain ⟨h1, h2⟩ := hok <;>
      subst h1 <;>
      exact ⟨rfl, h2⟩

/-- Witness for C8's amended theorem at a concrete input with an explicit
pdf output directory. -/
theorem c8_pdfout_forced_witness :
    ldW.pdfout = norm_path mdW.settings_temp_dir ∧ ([] : List String) = [] :=
  c8_pdfout_forced mdW fsW "handout" "EXPLICIT" "lyx" "prog.lyx" "" "" ""
    "make.log" "posix" false "" ldW [] (Or.inl rfl) rfl

end GslabMakeDev
